import Mathlib

/-!
SafeRx core verification: shallow embedding of the confidence-based routing
gate, the decision ledger (checks, reviews, queue, audit, analytics), the
threshold simulator, and the persisted relational schema, together with
theorems settling the frozen claims about them.

Sources embedded:
- frontend/src/types/index.ts (value types: InteractionCheckResult,
  PharmacistReview, AuditEntry, AnalyticsSummary, ThresholdSimulationResult)
- backend/supabase/migrations/001_initial_schema.sql (relational schema)
- PROJECT_WALKTHROUGH.md section 4 (routing gates) and section 9 (threshold
  simulator formula table)
The backend Python modules (router.py, audit.py, feedback.py, api.py) are not
part of the available sources; operations they implement are modelled from the
specification text, as marked in each doc comment.
-/

/-- Risk level of an interaction check, from frontend/src/types/index.ts
(`risk_level: "low" | "medium" | "high" | "critical"`). -/
inductive RiskLevel
  | low
  | medium
  | high
  | critical
deriving DecidableEq, Repr

/-- AI recommendation, from frontend/src/types/index.ts
(`recommendation: "auto_approve" | "pharmacist_review" | "reject"`). -/
inductive Recommendation
  | auto_approve
  | pharmacist_review
  | reject
deriving DecidableEq, Repr

/-- Routing decision, from frontend/src/types/index.ts
(`routing_decision: "auto_approved" | "routed_to_pharmacist"`). -/
inductive RoutingDecision
  | auto_approved
  | routed_to_pharmacist
deriving DecidableEq, Repr

/-- Named error kinds of the core, from the spec error-handling design
(InvalidConfiguration, InvalidInteractionResult, DuplicateCheck,
UnknownPrescription, UnknownCheck, AlreadyReviewed, NotEligibleForReview). -/
inductive SafeRxError
  | InvalidConfiguration
  | InvalidInteractionResult
  | DuplicateCheck
  | UnknownPrescription
  | UnknownCheck
  | AlreadyReviewed
  | NotEligibleForReview
deriving DecidableEq, Repr

/-- Output of the AI-analysis step, from frontend/src/types/index.ts
`InteractionCheckResult`. Confidence scores are modelled as rationals;
`interactions_found`, payload and reasoning fields do not influence any
claimed behaviour and are kept as opaque carried data where needed. -/
structure InteractionCheckResult where
  id : String
  prescription_id : String
  risk_level : RiskLevel
  confidence_score : ℚ
  recommendation : Recommendation
  reasoning : String
  created_at : Nat
deriving DecidableEq, Repr

/-- Modelled from the spec: backend/src/router.py is not among the available
sources. Faithful to spec section 4.1 and to the gate descriptions in
PROJECT_WALKTHROUGH.md section 4 and the README (auto-approve iff
`confidence_score >= threshold AND risk_level == low AND
recommendation == auto_approve`, inclusive comparison; a threshold outside
[0,1] fails with InvalidConfiguration and is never clamped). Enumeration
validity of `risk_level` and `recommendation` is carried by the types, so
the InvalidInteractionResult branch is unreachable in this embedding. -/
def RoutingGate.decide (check : InteractionCheckResult) (threshold : ℚ) :
    Except SafeRxError RoutingDecision :=
  if threshold < 0 ∨ 1 < threshold then
    .error .InvalidConfiguration
  else if threshold ≤ check.confidence_score ∧
      check.risk_level = .low ∧ check.recommendation = .auto_approve then
    .ok .auto_approved
  else
    .ok .routed_to_pharmacist

deriving instance DecidableEq for Except

/-- Historical simulation record, from PROJECT_WALKTHROUGH.md section 9: each
of the 300 pre-generated records carries an AI confidence score, a risk level,
an AI recommendation and a ground-truth danger label. -/
structure HistoricalRecord where
  confidence_score : ℚ
  risk_level : RiskLevel
  recommendation : Recommendation
  ground_truth_dangerous : Bool
deriving DecidableEq, Repr

/-- Per-threshold simulation output, from frontend/src/types/index.ts
`ThresholdSimulationResult`. -/
structure ThresholdSimulationResult where
  threshold : ℚ
  auto_approved_count : Nat
  routed_to_pharmacist_count : Nat
  estimated_false_negatives : Nat
  false_negative_rate : ℚ
  pharmacist_hours_per_day : ℚ
deriving DecidableEq, Repr

/-- Simulator workload configuration: the fixed per-review time (minutes) and
the assumed daily prescription volume, supplied as configuration per the spec
(the walkthrough formula table instantiates them at 5 minutes and 50 per day
over 300 records). -/
structure SimConfig where
  review_minutes : ℚ
  daily_volume : ℚ
deriving DecidableEq, Repr

/-- Per-record auto-approval test of the threshold simulator, translated from
the formula table in PROJECT_WALKTHROUGH.md section 9:
`Auto-approved = Count where confidence >= threshold AND risk == "low"`.
Note the table applies only these two conditions to a historical record. -/
def ThresholdSimulator.recordAutoApproved (threshold : ℚ) (r : HistoricalRecord) : Bool :=
  decide (threshold ≤ r.confidence_score) && decide (r.risk_level = RiskLevel.low)

/-- One sweep step of the threshold simulator, translated from the formula
table in PROJECT_WALKTHROUGH.md section 9 (the backend module that computes it
is not among the available sources):
queue = total - auto-approved; false negatives = auto-approved records where
`ground_truth_dangerous == true`; false-negative rate = false negatives /
total; pharmacist hours/day = (queue * dailyVolume/total * reviewMinutes)/60.
Rational division by zero is zero, matching the guard-free formulas. -/
def ThresholdSimulator.simulateOne (cfg : SimConfig) (records : List HistoricalRecord)
    (threshold : ℚ) : ThresholdSimulationResult :=
  let total := records.length
  let approved := (records.filter (ThresholdSimulator.recordAutoApproved threshold)).length
  let routed := total - approved
  let fn := (records.filter (fun r =>
    ThresholdSimulator.recordAutoApproved threshold r && r.ground_truth_dangerous)).length
  { threshold := threshold
    auto_approved_count := approved
    routed_to_pharmacist_count := routed
    estimated_false_negatives := fn
    false_negative_rate := (fn : ℚ) / (total : ℚ)
    pharmacist_hours_per_day :=
      ((routed : ℚ) * (cfg.daily_volume / (total : ℚ)) * cfg.review_minutes) / 60 }

/-- Threshold sweep over a user-specified threshold sequence: one simulation
result per candidate threshold, per PROJECT_WALKTHROUGH.md section 9. -/
def ThresholdSimulator.simulateThresholds (cfg : SimConfig) (records : List HistoricalRecord)
    (thresholds : List ℚ) : List ThresholdSimulationResult :=
  thresholds.map (ThresholdSimulator.simulateOne cfg records)

/-- Lift of a historical record to the check value type consumed by the
routing gate; identifier, reasoning and timestamp fields are not carried by
simulation records and are filled with inert defaults the gate never reads. -/
def HistoricalRecord.toCheck (r : HistoricalRecord) : InteractionCheckResult :=
  { id := ""
    prescription_id := ""
    risk_level := r.risk_level
    confidence_score := r.confidence_score
    recommendation := r.recommendation
    reasoning := ""
    created_at := 0 }

/-- Spec-side counting discipline for the simulator, following the words of
the spec for the refinement claim: the number of historical records on which
`RoutingGate.decide` (the live three-gate policy) returns auto_approved at
the given threshold. Compared against the auto-approved count computed by
`ThresholdSimulator.simulateOne`. -/
def gateAutoApprovedCount (records : List HistoricalRecord) (threshold : ℚ) : Nat :=
  (records.filter (fun r =>
    decide (RoutingGate.decide r.toCheck threshold = .ok .auto_approved))).length

/-- Pharmacist review record, from frontend/src/types/index.ts
`PharmacistReview` (the nullable agreement flag, feedback text and decision
time mirror the TypeScript nullable fields). -/
structure PharmacistReview where
  id : String
  interaction_check_id : String
  decision : String
  agrees_with_ai : Option Bool
  feedback_text : Option String
  time_to_decision_seconds : Option Nat
  created_at : Nat
deriving DecidableEq, Repr

/-- Ledger line for one interaction check: the check together with the routing
decision recorded for it (spec section 4.2, recordCheck appends the check with
the RoutingGate decision; the interaction_checks table stores the decision in
its routing_decision column). -/
structure LedgerCheck where
  check : InteractionCheckResult
  decision : RoutingDecision
deriving DecidableEq, Repr

/-- Modelled from the spec: the DecisionLedger state (spec section 4.2); the
backend storage modules are not among the available sources. Prescription ids
stand in for the external prescription store consulted by recordCheck;
reviews are keyed by the check id they were recorded against. -/
structure Ledger where
  prescriptions : List String
  checks : List LedgerCheck
  reviews : List (String × PharmacistReview)
deriving DecidableEq, Repr

/-- Test for an already-recorded check id. -/
def Ledger.hasCheck (l : Ledger) (cid : String) : Bool :=
  l.checks.any (fun lc => lc.check.id == cid)

/-- Test for an already-recorded review against a check id. -/
def Ledger.hasReview (l : Ledger) (cid : String) : Bool :=
  l.reviews.any (fun p => p.1 == cid)

/-- Modelled from the spec: recordCheck (spec section 4.2) appends a new
check together with the RoutingGate decision for it; fails with
DuplicateCheck if the identifier already exists and with UnknownPrescription
if the referenced prescription does not exist. -/
def DecisionLedger.recordCheck (l : Ledger) (threshold : ℚ)
    (c : InteractionCheckResult) : Except SafeRxError Ledger :=
  match RoutingGate.decide c threshold with
  | .error e => .error e
  | .ok d =>
      if l.hasCheck c.id then
        .error .DuplicateCheck
      else if l.prescriptions.contains c.prescription_id then
        .ok { l with checks := l.checks ++ [⟨c, d⟩] }
      else
        .error .UnknownPrescription

/-- Modelled from the spec: recordReview (spec section 4.2) attaches a
PharmacistReview to an existing, currently-unreviewed, routed_to_pharmacist
check; fails with UnknownCheck if the check id is absent, AlreadyReviewed if
a review already exists for that check, and NotEligibleForReview if the check
was auto_approved. -/
def DecisionLedger.recordReview (l : Ledger) (checkId : String)
    (review : PharmacistReview) : Except SafeRxError Ledger :=
  match l.checks.find? (fun lc => lc.check.id == checkId) with
  | none => .error .UnknownCheck
  | some lc =>
      if l.hasReview checkId then
        .error .AlreadyReviewed
      else if lc.decision = .auto_approved then
        .error .NotEligibleForReview
      else
        .ok { l with reviews := l.reviews ++ [(checkId, review)] }

/-- Modelled from the spec: listQueue (spec section 4.2) returns the
unreviewed routed checks in stable insertion (creation) order. -/
def DecisionLedger.listQueue (l : Ledger) : List LedgerCheck :=
  l.checks.filter (fun lc =>
    lc.decision == RoutingDecision.routed_to_pharmacist && !(l.hasReview lc.check.id))

/-- Ledger states reachable from an initial empty ledger (any externally
seeded prescription store) through successful recordCheck and recordReview
operations; failed operations leave the ledger unchanged and so add no edge. -/
inductive Reachable : Ledger → Prop
  | init (prescriptions : List String) : Reachable ⟨prescriptions, [], []⟩
  | check {l : Ledger} {t : ℚ} {c : InteractionCheckResult} {l2 : Ledger} :
      Reachable l → DecisionLedger.recordCheck l t c = .ok l2 → Reachable l2
  | review {l : Ledger} {cid : String} {r : PharmacistReview} {l2 : Ledger} :
      Reachable l → DecisionLedger.recordReview l cid r = .ok l2 → Reachable l2

/-- Aggregate analytics, from frontend/src/types/index.ts `AnalyticsSummary`
(risk_distribution is the count-per-risk-level map over all four levels). -/
structure AnalyticsSummary where
  total_prescriptions : Nat
  auto_approved_count : Nat
  pharmacist_reviewed_count : Nat
  auto_approve_rate : ℚ
  override_rate : ℚ
  average_confidence : ℚ
  average_time_to_decision_seconds : Option ℚ
  risk_distribution : RiskLevel → Nat

/-- Modelled from the spec: summarize (spec section 4.2) aggregates over the
full ledger; the auto-approve rate is auto-approved / total with 0 when the
ledger has no checks, the override rate is reviews with agreement == false /
total reviews with 0 when there are no reviews, mean confidence is over all
checks, mean decision time is over reviews carrying a non-null time (absent
when none do), and every risk level appears in the distribution. -/
def DecisionLedger.summarize (l : Ledger) : AnalyticsSummary :=
  let total := l.checks.length
  let approved := (l.checks.filter (fun lc =>
    lc.decision == RoutingDecision.auto_approved)).length
  let reviewed := l.reviews.length
  let overrides := (l.reviews.filter (fun p =>
    p.2.agrees_with_ai == some false)).length
  let times := l.reviews.filterMap (fun p => p.2.time_to_decision_seconds)
  { total_prescriptions := total
    auto_approved_count := approved
    pharmacist_reviewed_count := reviewed
    auto_approve_rate := if total = 0 then 0 else (approved : ℚ) / (total : ℚ)
    override_rate := if reviewed = 0 then 0 else (overrides : ℚ) / (reviewed : ℚ)
    average_confidence :=
      if total = 0 then 0
      else (l.checks.map (fun lc => lc.check.confidence_score)).sum / (total : ℚ)
    average_time_to_decision_seconds :=
      if times.length = 0 then none
      else some (((times.map (fun n => (n : ℚ))).sum) / (times.length : ℚ))
    risk_distribution := fun rl =>
      (l.checks.filter (fun lc => lc.check.risk_level == rl)).length }

/-- Audit log entry, from frontend/src/types/index.ts `AuditEntry` and the
audit_log table of 001_initial_schema.sql; timestamps are modelled as natural
numbers, nullable columns as options. -/
structure AuditEntry where
  id : String
  timestamp : Nat
  patient_id_masked : String
  prescription_id : String
  medication_name : String
  ai_recommendation : Option Recommendation
  ai_confidence : Option ℚ
  ai_risk_level : Option RiskLevel
  pharmacist_decision : Option String
  pharmacist_feedback : Option String
  ai_pharmacist_agreement : Option Bool
  time_to_decision_seconds : Option Nat
  final_status : String
deriving DecidableEq, Repr

/-- Optional audit filters of listAudit (spec section 4.2): a risk-level
filter and a final-status filter, each absent when no constraint applies. -/
structure AuditFilters where
  riskLevel : Option RiskLevel
  status : Option String
deriving DecidableEq, Repr

/-- Conjunction of the supplied audit filters; an absent filter imposes no
constraint (spec section 4.2). -/
def matchesFilters (f : AuditFilters) (e : AuditEntry) : Bool :=
  (match f.riskLevel with
   | none => true
   | some rl => e.ai_risk_level == some rl) &&
  (match f.status with
   | none => true
   | some s => e.final_status == s)

/-- Ordering of audit entries by timestamp descending (most recent first). -/
def auditOrder (a b : AuditEntry) : Prop :=
  b.timestamp ≤ a.timestamp

instance : DecidableRel auditOrder := fun a b =>
  inferInstanceAs (Decidable (b.timestamp ≤ a.timestamp))

instance : IsTotal AuditEntry auditOrder :=
  ⟨fun a b => Nat.le_total b.timestamp a.timestamp⟩

instance : IsTrans AuditEntry auditOrder :=
  ⟨fun _ _ _ h1 h2 => Nat.le_trans h2 h1⟩

/-- Modelled from the spec: listAudit (spec section 4.2) filters the audit
log by the conjunction of the supplied filters, orders the filtered entries
by timestamp descending, pages with limit and offset, and reports as total
the filtered count rather than the page size. -/
def DecisionLedger.listAudit (log : List AuditEntry) (f : AuditFilters)
    (limit offset : Nat) : List AuditEntry × Nat :=
  let filtered := log.filter (matchesFilters f)
  let sorted := List.insertionSort auditOrder filtered
  ((sorted.drop offset).take limit, filtered.length)

/-- Row of the patients table, from 001_initial_schema.sql (the allergies
JSONB document is carried as its text). -/
structure PatientRow where
  id : String
  name : String
  date_of_birth : String
  weight_kg : ℚ
  allergies : String
deriving DecidableEq, Repr

/-- Row of the prescriptions table, from 001_initial_schema.sql. -/
structure PrescriptionRow where
  id : String
  patient_id : String
  medication_name : String
  dosage : String
  frequency : String
  prescriber : String
  status : String
deriving DecidableEq, Repr

/-- Row of the interaction_checks table, from 001_initial_schema.sql (JSONB
documents carried as text; every column there is NOT NULL). -/
structure InteractionCheckRow where
  id : String
  prescription_id : String
  risk_level : String
  confidence_score : ℚ
  interactions_found : String
  recommendation : String
  reasoning : String
  masked_payload : String
  raw_payload : String
  routing_decision : String
deriving DecidableEq, Repr

/-- Row of the pharmacist_reviews table, from 001_initial_schema.sql:
interaction_check_id is NOT NULL and references interaction_checks(id), and
the schema declares no UNIQUE constraint on it. -/
structure PharmacistReviewRow where
  id : String
  interaction_check_id : String
  decision : String
  agrees_with_ai : Option Bool
  feedback_text : Option String
  time_to_decision_seconds : Option Int
deriving DecidableEq, Repr

/-- Relational state over the four schema tables linked by the foreign-key
chain patients <- prescriptions <- interaction_checks <- pharmacist_reviews. -/
structure DbState where
  patients : List PatientRow
  prescriptions : List PrescriptionRow
  interaction_checks : List InteractionCheckRow
  pharmacist_reviews : List PharmacistReviewRow
deriving DecidableEq, Repr

/-- Integrity constraints declared by 001_initial_schema.sql on those tables:
PRIMARY KEY uniqueness of each id column and the declared REFERENCES
(foreign-key) clauses. NOT NULL constraints are carried by the row types.
No other constraint is declared there for these tables; in particular
pharmacist_reviews.interaction_check_id carries no UNIQUE constraint. -/
def DbState.schemaOk (db : DbState) : Prop :=
  (db.patients.map PatientRow.id).Nodup ∧
  (db.prescriptions.map PrescriptionRow.id).Nodup ∧
  (db.interaction_checks.map InteractionCheckRow.id).Nodup ∧
  (db.pharmacist_reviews.map PharmacistReviewRow.id).Nodup ∧
  (∀ p ∈ db.prescriptions, p.patient_id ∈ db.patients.map PatientRow.id) ∧
  (∀ c ∈ db.interaction_checks, c.prescription_id ∈ db.prescriptions.map PrescriptionRow.id) ∧
  (∀ r ∈ db.pharmacist_reviews, r.interaction_check_id ∈ db.interaction_checks.map InteractionCheckRow.id)

instance (db : DbState) : Decidable db.schemaOk := by
  unfold DbState.schemaOk
  infer_instance

/-- Concrete check used in witnesses: the Margaret-Chen-style critical case
(confidence 1.0, risk critical, recommendation reject). -/
def sampleCriticalCheck : InteractionCheckResult :=
  { id := "chk-critical"
    prescription_id := "rx-1"
    risk_level := .critical
    confidence_score := 1
    recommendation := .reject
    reasoning := "critical interaction"
    created_at := 1 }

/-- Concrete check used in witnesses: a low-risk auto-approvable case. -/
def sampleSafeCheck : InteractionCheckResult :=
  { id := "chk-safe"
    prescription_id := "rx-2"
    risk_level := .low
    confidence_score := 0.97
    recommendation := .auto_approve
    reasoning := "no interactions"
    created_at := 2 }

/-- Concrete review used in witnesses. -/
def sampleReview : PharmacistReview :=
  { id := "rev-1"
    interaction_check_id := "chk-critical"
    decision := "approved"
    agrees_with_ai := some false
    feedback_text := none
    time_to_decision_seconds := some 120
    created_at := 3 }

/-- Ledger line for the routed critical check. -/
def sampleRoutedEntry : LedgerCheck := ⟨sampleCriticalCheck, .routed_to_pharmacist⟩

/-- Ledger line for the auto-approved safe check. -/
def sampleAutoEntry : LedgerCheck := ⟨sampleSafeCheck, .auto_approved⟩

/-- Ledger holding one routed, unreviewed check. -/
def sampleLedger : Ledger := ⟨["rx-1"], [sampleRoutedEntry], []⟩

/-- Ledger holding one routed check that already carries a review. -/
def sampleReviewedLedger : Ledger :=
  ⟨["rx-1"], [sampleRoutedEntry], [("chk-critical", sampleReview)]⟩

/-- Ledger holding one auto-approved check. -/
def sampleAutoLedger : Ledger := ⟨["rx-2"], [sampleAutoEntry], []⟩

/-- Audit entry used in witnesses: a reviewed critical check. -/
def sampleAudit1 : AuditEntry :=
  { id := "a1"
    timestamp := 10
    patient_id_masked := "PATIENT_1"
    prescription_id := "rx-1"
    medication_name := "Ibuprofen"
    ai_recommendation := some .reject
    ai_confidence := some 1
    ai_risk_level := some .critical
    pharmacist_decision := some "approved"
    pharmacist_feedback := none
    ai_pharmacist_agreement := some false
    time_to_decision_seconds := some 120
    final_status := "approved" }

/-- Audit entry used in witnesses: an auto-approved low-risk check. -/
def sampleAudit2 : AuditEntry :=
  { id := "a2"
    timestamp := 20
    patient_id_masked := "PATIENT_2"
    prescription_id := "rx-2"
    medication_name := "Amoxicillin"
    ai_recommendation := some .auto_approve
    ai_confidence := some 0.97
    ai_risk_level := some .low
    pharmacist_decision := none
    pharmacist_feedback := none
    ai_pharmacist_agreement := none
    time_to_decision_seconds := none
    final_status := "approved" }

/-!
Helper lemmas shared by the claim theorems.
-/

/-- Unfolding of the routing gate on an in-range threshold. -/
theorem RoutingGate.decide_in_range (c : InteractionCheckResult) (t : ℚ)
    (h : ¬(t < 0 ∨ 1 < t)) :
    RoutingGate.decide c t =
      if t ≤ c.confidence_score ∧ c.risk_level = .low ∧ c.recommendation = .auto_approve
      then .ok .auto_approved else .ok .routed_to_pharmacist := by
  unfold RoutingGate.decide
  rw [if_neg h]

/-- C1: for every InteractionCheckResult and every threshold in [0,1],
RoutingGate.decide returns auto_approved if and only if the confidence score
is at least the threshold, the risk level is low and the recommendation is
auto_approve; whenever that conjunction fails it returns
routed_to_pharmacist. -/
theorem decide_auto_approved_iff (c : InteractionCheckResult) (t : ℚ)
    (h0 : 0 ≤ t) (h1 : t ≤ 1) :
    (RoutingGate.decide c t = .ok .auto_approved ↔
      (t ≤ c.confidence_score ∧ c.risk_level = .low ∧ c.recommendation = .auto_approve)) ∧
    (¬(t ≤ c.confidence_score ∧ c.risk_level = .low ∧ c.recommendation = .auto_approve) →
      RoutingGate.decide c t = .ok .routed_to_pharmacist) := by
  have hrange : ¬(t < 0 ∨ 1 < t) := by
    push_neg
    exact ⟨h0, h1⟩
  rw [RoutingGate.decide_in_range c t hrange]
  constructor
  · constructor
    · intro h
      by_contra hc
      rw [if_neg hc] at h
      simp at h
    · intro hc
      rw [if_pos hc]
  · intro hc
    rw [if_neg hc]

/-- Witness for C1 at the spec scenario confidence 0.97, risk low,
recommendation auto_approve, threshold 0.95. -/
theorem decide_auto_approved_iff_witness :
    RoutingGate.decide sampleSafeCheck 0.95 = .ok .auto_approved :=
  (decide_auto_approved_iff sampleSafeCheck 0.95 (by norm_num) (by norm_num)).1.mpr
    ⟨by norm_num [sampleSafeCheck], rfl, rfl⟩

/-- C4: with risk low and recommendation auto_approve and an in-range
threshold, a confidence score exactly equal to the threshold yields
auto_approved (the comparison is inclusive) and a confidence score strictly
below the threshold yields routed_to_pharmacist. -/
theorem decide_boundary_inclusive (c : InteractionCheckResult) (t : ℚ)
    (h0 : 0 ≤ t) (h1 : t ≤ 1)
    (hr : c.risk_level = .low) (ha : c.recommendation = .auto_approve) :
    (c.confidence_score = t → RoutingGate.decide c t = .ok .auto_approved) ∧
    (c.confidence_score < t → RoutingGate.decide c t = .ok .routed_to_pharmacist) := by
  have hrange : ¬(t < 0 ∨ 1 < t) := by
    push_neg
    exact ⟨h0, h1⟩
  rw [RoutingGate.decide_in_range c t hrange]
  constructor
  · intro he
    rw [if_pos ⟨he.ge, hr, ha⟩]
  · intro hlt
    rw [if_neg (fun hc => absurd hc.1 (not_le.mpr hlt))]

/-- Witness for C4 at threshold 0.95 with confidence exactly 0.95 and
confidence 0.94. -/
theorem decide_boundary_inclusive_witness :
    RoutingGate.decide ⟨"chk-b", "rx-2", .low, 0.95, .auto_approve, "", 4⟩ 0.95 =
      .ok .auto_approved ∧
    RoutingGate.decide ⟨"chk-c", "rx-2", .low, 0.94, .auto_approve, "", 5⟩ 0.95 =
      .ok .routed_to_pharmacist :=
  ⟨(decide_boundary_inclusive _ 0.95 (by norm_num) (by norm_num) rfl rfl).1 rfl,
   (decide_boundary_inclusive _ 0.95 (by norm_num) (by norm_num) rfl rfl).2 (by norm_num)⟩

/-- C7: a threshold outside [0,1] makes RoutingGate.decide fail with
InvalidConfiguration and return no routing decision (no clamping), while an
in-range threshold never raises InvalidConfiguration (a routing decision is
returned). -/
theorem decide_threshold_validation (c : InteractionCheckResult) (t : ℚ) :
    ((t < 0 ∨ 1 < t) →
      RoutingGate.decide c t = .error .InvalidConfiguration ∧
      ∀ d, RoutingGate.decide c t ≠ .ok d) ∧
    (0 ≤ t → t ≤ 1 → ∃ d, RoutingGate.decide c t = .ok d) := by
  constructor
  · intro hout
    have h : RoutingGate.decide c t = .error .InvalidConfiguration := by
      unfold RoutingGate.decide
      rw [if_pos hout]
    refine ⟨h, fun d hd => ?_⟩
    rw [h] at hd
    simp at hd
  · intro h0 h1
    have hrange : ¬(t < 0 ∨ 1 < t) := by
      push_neg
      exact ⟨h0, h1⟩
    rw [RoutingGate.decide_in_range c t hrange]
    by_cases hc : t ≤ c.confidence_score ∧ c.risk_level = .low ∧ c.recommendation = .auto_approve
    · exact ⟨.auto_approved, by rw [if_pos hc]⟩
    · exact ⟨.routed_to_pharmacist, by rw [if_neg hc]⟩

/-- Witness for C7 at the out-of-range threshold 1.5 and the in-range
threshold 0.95. -/
theorem decide_threshold_validation_witness :
    RoutingGate.decide sampleSafeCheck 1.5 = .error .InvalidConfiguration ∧
    ∃ d, RoutingGate.decide sampleSafeCheck 0.95 = .ok d :=
  ⟨((decide_threshold_validation sampleSafeCheck 1.5).1 (by norm_num)).1,
   (decide_threshold_validation sampleSafeCheck 0.95).2 (by norm_num) (by norm_num)⟩

/-- On a record the gate would recommend for auto-approval, the simulator
auto-approval test agrees with the live routing gate at any in-range
threshold. -/
theorem recordAutoApproved_eq_gate (t : ℚ) (h : ¬(t < 0 ∨ 1 < t))
    (r : HistoricalRecord) (hr : r.recommendation = .auto_approve) :
    ThresholdSimulator.recordAutoApproved t r =
      decide (RoutingGate.decide r.toCheck t = .ok .auto_approved) := by
  rw [RoutingGate.decide_in_range r.toCheck t h]
  by_cases hc : t ≤ r.confidence_score <;> by_cases hl : r.risk_level = .low <;>
    simp [ThresholdSimulator.recordAutoApproved, HistoricalRecord.toCheck, hc, hl, hr]

/-- Counterexample to C2 as stated: at threshold 0.95, a single historical
record with confidence 0.99, risk low but AI recommendation
pharmacist_review is counted auto-approved by the simulator formulas while
RoutingGate.decide routes it to the pharmacist, so the simulator count and
the three-gate count differ. -/
theorem simulator_gate_mismatch_cex :
    (ThresholdSimulator.simulateOne ⟨5, 50⟩
        [⟨0.99, .low, .pharmacist_review, true⟩] 0.95).auto_approved_count = 1 ∧
    gateAutoApprovedCount [⟨0.99, .low, .pharmacist_review, true⟩] 0.95 = 0 ∧
    RoutingGate.decide (HistoricalRecord.toCheck ⟨0.99, .low, .pharmacist_review, true⟩) 0.95 =
      .ok .routed_to_pharmacist := by
  refine ⟨?_, ?_, ?_⟩
  · norm_num [ThresholdSimulator.simulateOne, ThresholdSimulator.recordAutoApproved,
      List.filter_cons]
  · norm_num [gateAutoApprovedCount, RoutingGate.decide, HistoricalRecord.toCheck,
      List.filter_cons]
    constructor
    · intro h
      cases h
    · intro h
      cases h
  · norm_num [RoutingGate.decide, HistoricalRecord.toCheck]
    intro h
    cases h

/-- C2 amended: the simulator counts a record as auto-approved exactly when
confidence >= threshold and risk == low, ignoring the AI recommendation
gate; consequently its per-threshold auto_approved_count equals the count of
records on which RoutingGate.decide returns auto_approved precisely when
every record carries recommendation auto_approve (and the threshold is in
range). -/
theorem simulator_gate_agreement (cfg : SimConfig) (records : List HistoricalRecord)
    (t : ℚ) (h0 : 0 ≤ t) (h1 : t ≤ 1)
    (hrec : ∀ r ∈ records, r.recommendation = .auto_approve) :
    (ThresholdSimulator.simulateOne cfg records t).auto_approved_count =
      gateAutoApprovedCount records t := by
  have hrange : ¬(t < 0 ∨ 1 < t) := by
    push_neg
    exact ⟨h0, h1⟩
  unfold ThresholdSimulator.simulateOne gateAutoApprovedCount
  exact congrArg List.length
    (List.filter_congr (fun r hrm => recordAutoApproved_eq_gate t hrange r (hrec r hrm)))

/-- Witness for the amended C2 on a one-record list whose recommendation is
auto_approve, at threshold 0.95. -/
theorem simulator_gate_agreement_witness :
    (ThresholdSimulator.simulateOne ⟨5, 50⟩
        [⟨0.97, .low, .auto_approve, false⟩] 0.95).auto_approved_count =
      gateAutoApprovedCount [⟨0.97, .low, .auto_approve, false⟩] 0.95 :=
  simulator_gate_agreement ⟨5, 50⟩ [⟨0.97, .low, .auto_approve, false⟩] 0.95
    (by norm_num) (by norm_num)
    (by
      intro r hr
      rw [List.mem_singleton] at hr
      subst hr
      rfl)

/-- Raising the threshold shrinks the set of records the simulator counts as
auto-approved. -/
theorem recordAutoApproved_mono {t1 t2 : ℚ} (h : t1 ≤ t2) (r : HistoricalRecord) :
    ThresholdSimulator.recordAutoApproved t2 r = true →
    ThresholdSimulator.recordAutoApproved t1 r = true := by
  unfold ThresholdSimulator.recordAutoApproved
  simp only [Bool.and_eq_true, decide_eq_true_eq]
  exact fun hp => ⟨le_trans h hp.1, hp.2⟩

/-- The estimated false-negative count of one simulation step never grows
when the threshold rises. -/
theorem simulateOne_fn_antitone (cfg : SimConfig) (records : List HistoricalRecord)
    {t1 t2 : ℚ} (h : t1 ≤ t2) :
    (ThresholdSimulator.simulateOne cfg records t2).estimated_false_negatives ≤
    (ThresholdSimulator.simulateOne cfg records t1).estimated_false_negatives := by
  unfold ThresholdSimulator.simulateOne
  apply List.Sublist.length_le
  apply List.monotone_filter_right
  intro a ha
  simp only [Bool.and_eq_true] at ha ⊢
  exact ⟨recordAutoApproved_mono h a ha.1, ha.2⟩

/-- C3: over any fixed record set and any ascending swept threshold
sequence, the estimated false-negative counts reported by simulateThresholds
are monotonically non-increasing: for every pair of thresholds t1 <= t2 in
the sweep (adjacent pairs included), the count at t2 is at most the count at
t1. -/
theorem simulateThresholds_false_negatives_antitone (cfg : SimConfig)
    (records : List HistoricalRecord) (thresholds : List ℚ)
    (hs : thresholds.Sorted (· ≤ ·)) :
    (ThresholdSimulator.simulateThresholds cfg records thresholds).Pairwise
      (fun a b => b.estimated_false_negatives ≤ a.estimated_false_negatives) := by
  unfold ThresholdSimulator.simulateThresholds
  rw [List.pairwise_map]
  exact hs.imp (fun hab => simulateOne_fn_antitone cfg records hab)

/-- Shape of a successful recordCheck: prescriptions and reviews are
unchanged and exactly one ledger line is appended. -/
theorem recordCheck_ok_shape {l : Ledger} {t : ℚ} {c : InteractionCheckResult}
    {l2 : Ledger} (h : DecisionLedger.recordCheck l t c = .ok l2) :
    l2.prescriptions = l.prescriptions ∧ l2.reviews = l.reviews ∧
    ∃ d, l2.checks = l.checks ++ [⟨c, d⟩] := by
  unfold DecisionLedger.recordCheck at h
  cases hdec : RoutingGate.decide c t with
  | error e =>
      simp only [hdec] at h
      cases h
  | ok d =>
      simp only [hdec] at h
      by_cases h1 : l.hasCheck c.id = true
      · rw [if_pos h1] at h
        cases h
      · rw [if_neg h1] at h
        by_cases h2 : l.prescriptions.contains c.prescription_id = true
        · rw [if_pos h2] at h
          injection h with h
          subst h
          exact ⟨rfl, rfl, d, rfl⟩
        · rw [if_neg h2] at h
          cases h

/-- Shape of a successful recordReview: only the review list changes, the
check id was found with a routed decision and was not yet reviewed. -/
theorem recordReview_ok_shape {l : Ledger} {cid : String} {r : PharmacistReview}
    {l2 : Ledger} (h : DecisionLedger.recordReview l cid r = .ok l2) :
    l2 = { l with reviews := l.reviews ++ [(cid, r)] } ∧
    l.hasReview cid = false ∧
    ∃ lc, l.checks.find? (fun x => x.check.id == cid) = some lc ∧
      lc.decision = .routed_to_pharmacist := by
  unfold DecisionLedger.recordReview at h
  cases hf : l.checks.find? (fun x => x.check.id == cid) with
  | none =>
      simp only [hf] at h
      cases h
  | some lc =>
      simp only [hf] at h
      by_cases h1 : l.hasReview cid = true
      · rw [if_pos h1] at h
        cases h
      · rw [if_neg h1] at h
        by_cases h2 : lc.decision = .auto_approved
        · rw [if_pos h2] at h
          cases h
        · rw [if_neg h2] at h
          injection h with h
          have hd : lc.decision = .routed_to_pharmacist := by
            cases hdd : lc.decision
            · exact absurd hdd h2
            · rfl
          exact ⟨h.symm, Bool.eq_false_iff.mpr h1, lc, rfl, hd⟩

/-- Every reachable ledger keeps at most one review per check id, and each
review points at an existing routed check. -/
theorem reachable_wellFormed {l : Ledger} (h : Reachable l) :
    (l.reviews.map Prod.fst).Nodup ∧
    ∀ p ∈ l.reviews, ∃ lc, lc ∈ l.checks ∧ lc.check.id = p.1 ∧
      lc.decision = .routed_to_pharmacist := by
  induction h with
  | init ps =>
      simp
  | @check l t c l2 hprev hop ih =>
      obtain ⟨hp, hrev, d, hch⟩ := recordCheck_ok_shape hop
      refine ⟨by rw [hrev]; exact ih.1, ?_⟩
      intro p hp2
      rw [hrev] at hp2
      obtain ⟨lc, hmem, hid, hd⟩ := ih.2 p hp2
      exact ⟨lc, by rw [hch]; exact List.mem_append_left _ hmem, hid, hd⟩
  | @review l cid r l2 hprev hop ih =>
      obtain ⟨hl2, hno, lc, hfind, hd⟩ := recordReview_ok_shape hop
      subst hl2
      have hnotin : ∀ p ∈ l.reviews, p.1 ≠ cid := by
        intro p hp hpe
        have hfalse := List.any_eq_false.mp hno p hp
        rw [hpe] at hfalse
        simp at hfalse
      constructor
      · rw [List.map_append]
        refine List.Nodup.append ih.1 (by simp) ?_
        simp only [List.map_cons, List.map_nil]
        rw [List.disjoint_singleton]
        intro hmem
        obtain ⟨p, hp, hpe⟩ := List.mem_map.mp hmem
        exact hnotin p hp hpe
      · intro p hp2
        rcases List.mem_append.mp hp2 with hold | hnew
        · exact ih.2 p hold
        · rw [List.mem_singleton] at hnew
          subst hnew
          refine ⟨lc, List.mem_of_find?_eq_some hfind, ?_, hd⟩
          have := List.find?_some hfind
          simpa using this

/-- C5: in every reachable ledger state, listQueue returns exactly the
checks whose routing decision is routed_to_pharmacist and that carry no
linked review; it never contains an auto_approved check, and reviews are
recorded at most once per check, so a routed check stays in the queue until
exactly one review is recorded against it. -/
theorem listQueue_characterization {l : Ledger} (h : Reachable l) :
    (∀ lc, lc ∈ DecisionLedger.listQueue l ↔
      (lc ∈ l.checks ∧ lc.decision = .routed_to_pharmacist ∧
        l.hasReview lc.check.id = false)) ∧
    (∀ lc ∈ DecisionLedger.listQueue l, lc.decision ≠ .auto_approved) ∧
    (l.reviews.map Prod.fst).Nodup := by
  have hwf := reachable_wellFormed h
  have hmem : ∀ lc, lc ∈ DecisionLedger.listQueue l ↔
      (lc ∈ l.checks ∧ lc.decision = .routed_to_pharmacist ∧
        l.hasReview lc.check.id = false) := by
    intro lc
    unfold DecisionLedger.listQueue
    rw [List.mem_filter]
    simp only [Bool.and_eq_true, beq_iff_eq, Bool.not_eq_true', and_assoc]
  refine ⟨hmem, ?_, hwf.1⟩
  intro lc hlc
  rw [(hmem lc).1 hlc |>.2.1]
  intro hcon
  cases hcon

/-- Witness for C5: in the reachable one-check ledger obtained by recording
the critical check, the routed entry is in the open queue. -/
theorem listQueue_characterization_witness :
    sampleRoutedEntry ∈ DecisionLedger.listQueue sampleLedger :=
  ((listQueue_characterization
      (Reachable.check (Reachable.init ["rx-1"])
        (show DecisionLedger.recordCheck ⟨["rx-1"], [], []⟩ 0.95 sampleCriticalCheck =
            .ok sampleLedger by
          norm_num [DecisionLedger.recordCheck, RoutingGate.decide, Ledger.hasCheck,
            sampleCriticalCheck, sampleLedger, sampleRoutedEntry]
          simp))).1
    sampleRoutedEntry).mpr
    ⟨by simp [sampleLedger], rfl, rfl⟩

/-- C6: recordReview fails with UnknownCheck when the check id is absent,
with AlreadyReviewed when a review already exists for the check, with
NotEligibleForReview when the check was auto_approved, and otherwise
succeeds and attaches the review. -/
theorem recordReview_error_semantics (l : Ledger) (cid : String) (r : PharmacistReview) :
    (l.checks.find? (fun x => x.check.id == cid) = none →
      DecisionLedger.recordReview l cid r = .error .UnknownCheck) ∧
    (∀ lc, l.checks.find? (fun x => x.check.id == cid) = some lc →
      l.hasReview cid = true →
      DecisionLedger.recordReview l cid r = .error .AlreadyReviewed) ∧
    (∀ lc, l.checks.find? (fun x => x.check.id == cid) = some lc →
      l.hasReview cid = false → lc.decision = .auto_approved →
      DecisionLedger.recordReview l cid r = .error .NotEligibleForReview) ∧
    (∀ lc, l.checks.find? (fun x => x.check.id == cid) = some lc →
      l.hasReview cid = false → lc.decision = .routed_to_pharmacist →
      DecisionLedger.recordReview l cid r =
        .ok { l with reviews := l.reviews ++ [(cid, r)] }) := by
  refine ⟨?_, ?_, ?_, ?_⟩
  · intro hf
    unfold DecisionLedger.recordReview
    simp only [hf]
  · intro lc hf hrev
    unfold DecisionLedger.recordReview
    simp only [hf, hrev]
    rfl
  · intro lc hf hrev hd
    unfold DecisionLedger.recordReview
    simp only [hf, hrev, hd]
    rfl
  · intro lc hf hrev hd
    unfold DecisionLedger.recordReview
    simp only [hf, hrev, hd]
    rfl

/-- Witness for C6: the four outcomes at concrete ledgers — an absent check
id, an already reviewed check, an auto-approved check, and a routed
unreviewed check. -/
theorem recordReview_error_semantics_witness :
    DecisionLedger.recordReview ⟨["rx-1"], [], []⟩ "chk-critical" sampleReview =
      .error .UnknownCheck ∧
    DecisionLedger.recordReview sampleReviewedLedger "chk-critical" sampleReview =
      .error .AlreadyReviewed ∧
    DecisionLedger.recordReview sampleAutoLedger "chk-safe" sampleReview =
      .error .NotEligibleForReview ∧
    DecisionLedger.recordReview sampleLedger "chk-critical" sampleReview =
      .ok sampleReviewedLedger :=
  ⟨(recordReview_error_semantics _ _ _).1 rfl,
   (recordReview_error_semantics _ _ _).2.1 sampleRoutedEntry rfl rfl,
   (recordReview_error_semantics _ _ _).2.2.1 sampleAutoEntry rfl rfl rfl,
   (recordReview_error_semantics _ _ _).2.2.2 sampleRoutedEntry rfl rfl rfl⟩

/-- C8: summarize returns auto-approve and override rates of 0 on the empty
ledger (no division error), and in general the auto-approve rate is the
auto-approved count over the total check count when checks exist, and the
override rate is the count of reviews with agreement false over the review
count when reviews exist. -/
theorem summarize_rate_semantics (l : Ledger) :
    (l.checks = [] → l.reviews = [] →
      (DecisionLedger.summarize l).auto_approve_rate = 0 ∧
      (DecisionLedger.summarize l).override_rate = 0) ∧
    (l.checks ≠ [] →
      (DecisionLedger.summarize l).auto_approve_rate =
        ((l.checks.filter (fun lc =>
          lc.decision == RoutingDecision.auto_approved)).length : ℚ) /
          (l.checks.length : ℚ)) ∧
    (l.reviews ≠ [] →
      (DecisionLedger.summarize l).override_rate =
        ((l.reviews.filter (fun p =>
          p.2.agrees_with_ai == some false)).length : ℚ) /
          (l.reviews.length : ℚ)) := by
  refine ⟨?_, ?_, ?_⟩
  · intro hc hr
    constructor <;> simp [DecisionLedger.summarize, hc, hr]
  · intro hc
    have hne : ¬(l.checks.length = 0) := fun h0 => hc (List.length_eq_zero.mp h0)
    simp [DecisionLedger.summarize, hne]
  · intro hr
    have hne : ¬(l.reviews.length = 0) := fun h0 => hr (List.length_eq_zero.mp h0)
    simp [DecisionLedger.summarize, hne]

/-- Witness for C8 on the empty ledger. -/
theorem summarize_rate_semantics_witness :
    (DecisionLedger.summarize ⟨[], [], []⟩).auto_approve_rate = 0 ∧
    (DecisionLedger.summarize ⟨[], [], []⟩).override_rate = 0 :=
  (summarize_rate_semantics ⟨[], [], []⟩).1 rfl rfl

/-- C9: listAudit returns only entries of the log matching the conjunction
of the supplied filters (an absent filter imposing no constraint), ordered
by timestamp descending, and reports as total the count of all entries
matching the filters rather than the size of the returned page. -/
theorem listAudit_filters_order_total (log : List AuditEntry) (f : AuditFilters)
    (limit offset : Nat) :
    (∀ e ∈ (DecisionLedger.listAudit log f limit offset).1,
      e ∈ log ∧
      (∀ rl, f.riskLevel = some rl → e.ai_risk_level = some rl) ∧
      (∀ s, f.status = some s → e.final_status = s)) ∧
    (DecisionLedger.listAudit log f limit offset).1.Sorted auditOrder ∧
    (DecisionLedger.listAudit log f limit offset).2 =
      (log.filter (matchesFilters f)).length ∧
    (DecisionLedger.listAudit log ⟨none, none⟩ limit offset).2 = log.length := by
  unfold DecisionLedger.listAudit
  refine ⟨?_, ?_, rfl, ?_⟩
  · intro e he
    have h1 : e ∈ (List.insertionSort auditOrder
        (log.filter (matchesFilters f))).drop offset :=
      List.mem_of_mem_take he
    have h2 : e ∈ List.insertionSort auditOrder (log.filter (matchesFilters f)) :=
      List.mem_of_mem_drop h1
    have h3 : e ∈ log.filter (matchesFilters f) :=
      (List.Perm.mem_iff (List.perm_insertionSort auditOrder _)).mp h2
    have h4 := List.mem_filter.mp h3
    refine ⟨h4.1, ?_, ?_⟩
    · intro rl hrl
      have hm := h4.2
      unfold matchesFilters at hm
      rw [hrl] at hm
      simp only [Bool.and_eq_true] at hm
      simpa using hm.1
    · intro s hs
      have hm := h4.2
      unfold matchesFilters at hm
      rw [hs] at hm
      simp only [Bool.and_eq_true] at hm
      simpa using hm.2
  · exact List.Pairwise.sublist
      ((List.take_sublist _ _).trans (List.drop_sublist _ _))
      (List.sorted_insertionSort auditOrder _)
  · have hall : log.filter (matchesFilters ⟨none, none⟩) = log :=
      List.filter_eq_self.mpr (fun a _ => rfl)
    simp only [hall]

/-- Witness for C9: on a two-entry log filtered to critical risk, the
reported total is the filtered count 1. -/
theorem listAudit_filters_order_total_witness :
    (DecisionLedger.listAudit [sampleAudit1, sampleAudit2]
      ⟨some .critical, none⟩ 10 0).2 = 1 :=
  ((listAudit_filters_order_total [sampleAudit1, sampleAudit2]
      ⟨some .critical, none⟩ 10 0).2.2.1).trans (by rfl)

/-- C10: the relational schema of 001_initial_schema.sql admits a database
state satisfying every constraint it declares in which two distinct
pharmacist_reviews rows reference the same interaction check, so the
at-most-one-review-per-check invariant is not enforced by the schema and
rests on application-level checks. -/
theorem schema_allows_duplicate_reviews :
    ∃ db : DbState, db.schemaOk ∧
      ∃ r1, r1 ∈ db.pharmacist_reviews ∧ ∃ r2, r2 ∈ db.pharmacist_reviews ∧
        r1.id ≠ r2.id ∧ r1.interaction_check_id = r2.interaction_check_id := by
  refine ⟨⟨[⟨"pat-1", "Jane Roe", "1960-01-01", 70, "[]"⟩],
      [⟨"rx-1", "pat-1", "Ibuprofen", "200mg", "as needed", "Dr. A", "in_review"⟩],
      [⟨"chk-1", "rx-1", "critical", 1, "[]", "reject", "r", "m", "w",
        "routed_to_pharmacist"⟩],
      [⟨"rev-1", "chk-1", "approved", some true, none, some 60⟩,
       ⟨"rev-2", "chk-1", "rejected", some false, none, some 90⟩]⟩, ?_, ?_⟩
  · refine ⟨?_, ?_, ?_, ?_, ?_, ?_, ?_⟩ <;> simp
  · exact ⟨_, List.mem_cons_self _ _, _,
      List.mem_cons_of_mem _ (List.mem_cons_self _ _), by simp, rfl⟩

/-- Witness for C3 on a concrete two-record set swept over the thresholds
0.80 and 0.95. -/
theorem simulateThresholds_false_negatives_antitone_witness :
    (ThresholdSimulator.simulateThresholds ⟨5, 50⟩
        [⟨0.9, .low, .auto_approve, true⟩, ⟨0.99, .low, .auto_approve, false⟩]
        [0.8, 0.95]).Pairwise
      (fun a b => b.estimated_false_negatives ≤ a.estimated_false_negatives) :=
  simulateThresholds_false_negatives_antitone ⟨5, 50⟩
    [⟨0.9, .low, .auto_approve, true⟩, ⟨0.99, .low, .auto_approve, false⟩]
    [0.8, 0.95]
    (by norm_num [List.sorted_cons])
